import Mathlib

/-!
Verification of the media-buying management system core: the SKU
intelligence engine (`app/intelligence/sku_intelligence.py`), its
configuration (`app/intelligence/config.py`), the integration middleware
(`app/integrations/middleware.py`) and the metrics normalization service
(`app/services/integration_metrics_service.py`).

Embedding conventions:
- Python floats are modelled as exact rationals (ℚ); Python ints as ℤ or ℕ.
- Python dicts with a fixed field vocabulary are modelled as structures;
  `dict.get(key, default)` on a field that may be absent is modelled with
  `Option` plus `getD`.
- Async collaborators (Mongo queries, HTTP connectors) are passed in as
  explicit values: the campaign list that `get_campaigns_by_sku` would
  return, an `Executor` record of fallible operations, and so on.
- Fallible Python calls (which may raise) are modelled as `Except`.
-/

namespace MediaBuying

/-- Relevant slice of MVP_CONFIG from app/intelligence/config.py, with the
field types the intelligence engine actually uses (money and scores as ℚ,
counts as ℤ). -/
structure Config where
  min_campaign_budget : ℚ
  explore_budget_percentage : ℚ
  impression_threshold : ℤ
  minimum_data_points_for_decisions : ℚ
  explore_mode_duration_days : ℤ
  exploit_confidence_threshold : ℚ
  min_roas_for_exploit : ℚ
  max_daily_budget_increase_percentage : ℚ
deriving DecidableEq

/-- The default values of MVP_CONFIG (app/intelligence/config.py lines 6-33)
restricted to the fields above. -/
def MVP_CONFIG : Config where
  min_campaign_budget := 100
  explore_budget_percentage := 20
  impression_threshold := 1000
  minimum_data_points_for_decisions := 50
  explore_mode_duration_days := 7
  exploit_confidence_threshold := 8 / 10
  min_roas_for_exploit := 2
  max_daily_budget_increase_percentage := 50

/-- Per-campaign entry of the performance dict built by get_sku_performance
(keys spend, impressions, clicks, conversions, roas, data_points). -/
structure CampaignPerf where
  spend : ℚ
  impressions : ℤ
  clicks : ℤ
  conversions : ℤ
  roas : ℚ
  data_points : ℤ
deriving DecidableEq

/-- The aggregated performance dict consumed by determine_mode and the two
decision functions. The campaigns field is the campaign_id-keyed sub-dict,
modelled as an association list with unique keys in practice. -/
structure Performance where
  total_impressions : ℤ
  total_spend : ℚ
  avg_roas : ℚ
  confidence_score : ℚ
  days_running : ℤ
  campaigns : List (String × CampaignPerf)
deriving DecidableEq

/-- Lookup modelling performance.get("campaigns", {}).get(cid, {}).get("roas", 0). -/
def Performance.campaignRoas (performance : Performance) (cid : String) : ℚ :=
  match performance.campaigns.find? (fun e => e.1 == cid) with
  | some e => e.2.roas
  | none => 0

/-- A campaign document as read by the engine: its id (Mongo _id), status and
budget_allocated. Missing budget_allocated defaults to 0 in the source via
c.get("budget_allocated", 0); the field is always present here. -/
structure Campaign where
  id : String
  status : String
  budget_allocated : ℚ
deriving DecidableEq

/-- A decision dict emitted by the engine. The source uses a "type" string
key with exactly the three values matched by execute_decisions; decisions of
type budget_allocation carry campaign_id, old_budget, new_budget, reason. -/
inductive Decision where
  | budget_allocation (campaign_id : String) (old_budget new_budget : ℚ) (reason : String)
  | pause_campaign (campaign_id : String)
  | activate_campaign (campaign_id : String)
deriving DecidableEq

/-- The campaign_id field of a decision. -/
def Decision.campaign_id : Decision → String
  | .budget_allocation cid _ _ _ => cid
  | .pause_campaign cid => cid
  | .activate_campaign cid => cid

/-- The new_budget field of a budget_allocation decision (0 otherwise). -/
def Decision.new_budget : Decision → ℚ
  | .budget_allocation _ _ nb _ => nb
  | _ => 0

/-- The old_budget field of a budget_allocation decision (0 otherwise). -/
def Decision.old_budget : Decision → ℚ
  | .budget_allocation _ ob _ _ => ob
  | _ => 0

/-! Stable insertion sort, modelling Python sorted(key=...) which is a
stable sort; the comparator is a Bool-valued "should come no later than"
test. -/

/-- Insert c before the first element d with le c d (stable ordered insert). -/
def ordInsert {α : Type} (le : α → α → Bool) (c : α) : List α → List α
  | [] => [c]
  | d :: ds => if le c d then c :: d :: ds else d :: ordInsert le c ds

/-- Stable sort by repeated ordered insertion, equal to Python sorted for a
total preorder comparator. -/
def ordSort {α : Type} (le : α → α → Bool) (l : List α) : List α :=
  l.foldr (ordInsert le) []

/-- Sorting of active campaigns by per-campaign ROAS, ascending: the
sorted(...) call of explore_mode_decisions (lines 110-113). -/
def sortByRoasAsc (performance : Performance) (l : List Campaign) : List Campaign :=
  ordSort (fun a b => decide (performance.campaignRoas a.id ≤ performance.campaignRoas b.id)) l

/-- Sorting of active campaigns by per-campaign ROAS, descending
(reverse=True): the sorted(...) call of exploit_mode_decisions (148-152). -/
def sortByRoasDesc (performance : Performance) (l : List Campaign) : List Campaign :=
  ordSort (fun a b => decide (performance.campaignRoas b.id ≤ performance.campaignRoas a.id)) l

/-- SKUIntelligence.determine_mode (sku_intelligence.py lines 67-90): the
four-rule explore/exploit precedence. The sku_id parameter of the source is
unused there and omitted here; the .get defaults of the source are the field
values of `performance`. -/
def determine_mode (cfg : Config) (performance : Performance) : String :=
  if performance.days_running < cfg.explore_mode_duration_days then "explore"
  else if performance.total_impressions < cfg.impression_threshold then "explore"
  else if performance.confidence_score > cfg.exploit_confidence_threshold ∧
          performance.avg_roas > cfg.min_roas_for_exploit then "exploit"
  else "explore"

/-- SKUIntelligence.explore_mode_decisions (lines 92-132). `campaigns` is
the list returned by the get_campaigns_by_sku collaborator. The exploration
budget is 20 percent (explore_budget_percentage) of the total active budget;
each of the up-to-3 lowest-ROAS campaigns gets explore_budget / 3 added,
floored at min_campaign_budget, and a decision is emitted only when the new
budget differs from the current one. -/
def explore_mode_decisions (cfg : Config) (campaigns : List Campaign)
    (performance : Performance) : List Decision :=
  let active_campaigns := campaigns.filter (fun c => c.status == "active")
  if active_campaigns.isEmpty then []
  else
    let total_budget := (active_campaigns.map Campaign.budget_allocated).sum
    let explore_budget := total_budget * (cfg.explore_budget_percentage / 100)
    let campaigns_by_performance := sortByRoasAsc performance active_campaigns
    (campaigns_by_performance.take 3).enum.filterMap (fun ic =>
      let current_budget := ic.2.budget_allocated
      let new_budget := max (current_budget + explore_budget / 3) cfg.min_campaign_budget
      if new_budget ≠ current_budget then
        some (Decision.budget_allocation ic.2.id current_budget new_budget
          ("Exploration allocation for learning (campaign #" ++ toString (ic.1 + 1) ++ ")"))
      else none)

/-- SKUIntelligence.exploit_mode_decisions (lines 134-186). Every active
campaign is examined (in descending-ROAS order): ROAS > 3.0 gives a 10
percent increase capped at 1 + max_daily_budget_increase_percentage / 100
times the current budget; ROAS < 1.5 gives a 20 percent decrease floored at
min_campaign_budget; otherwise no decision. The :.2f float formatting of
the reason string is modelled by toString on ℚ. -/
def exploit_mode_decisions (cfg : Config) (campaigns : List Campaign)
    (performance : Performance) : List Decision :=
  let active_campaigns := campaigns.filter (fun c => c.status == "active")
  if active_campaigns.isEmpty then []
  else
    let campaigns_by_performance := sortByRoasDesc performance active_campaigns
    campaigns_by_performance.filterMap (fun c =>
      let current_roas := performance.campaignRoas c.id
      let current_budget := c.budget_allocated
      if current_roas > 3 then
        let new_budget := min (current_budget * (11 / 10))
          (current_budget * (1 + cfg.max_daily_budget_increase_percentage / 100))
        some (Decision.budget_allocation c.id current_budget new_budget
          ("Exploit: High ROAS (" ++ toString current_roas ++ ") - increasing budget"))
      else if current_roas < 3 / 2 then
        let new_budget := max (current_budget * (8 / 10)) cfg.min_campaign_budget
        some (Decision.budget_allocation c.id current_budget new_budget
          ("Exploit: Low ROAS (" ++ toString current_roas ++ ") - decreasing budget"))
      else none)

/-- The persistence/connector collaborator of execute_decisions:
update_campaign_budget, pause_campaign, activate_campaign, each returning a
success Bool or raising (Except.error). -/
structure Executor where
  update_campaign_budget : String → ℚ → Except String Bool
  pause_campaign : String → Except String Bool
  activate_campaign : String → Except String Bool

/-- One execution-result record of execute_decisions: the decision, a
success flag and a human-readable message. -/
structure ExecResult where
  decision : Decision
  success : Bool
  message : String
deriving DecidableEq

/-- The loop body of execute_decisions for one decision: dispatch on the
decision type, call the collaborator inside the try block, and append one
result record; an exception (Except.error) becomes a failed-result record
with an "Execution error: ..." message. -/
def executeOne (ex : Executor) (decision : Decision) : ExecResult :=
  match decision with
  | Decision.budget_allocation cid _ nb _ =>
    match ex.update_campaign_budget cid nb with
    | Except.ok s =>
      { decision := decision, success := s,
        message := if s then "Budget updated successfully" else "Budget update failed" }
    | Except.error e =>
      { decision := decision, success := false, message := "Execution error: " ++ e }
  | Decision.pause_campaign cid =>
    match ex.pause_campaign cid with
    | Except.ok s =>
      { decision := decision, success := s,
        message := if s then "Campaign paused successfully" else "Campaign pause failed" }
    | Except.error e =>
      { decision := decision, success := false, message := "Execution error: " ++ e }
  | Decision.activate_campaign cid =>
    match ex.activate_campaign cid with
    | Except.ok s =>
      { decision := decision, success := s,
        message := if s then "Campaign activated successfully" else "Campaign activation failed" }
    | Except.error e =>
      { decision := decision, success := false, message := "Execution error: " ++ e }

/-- SKUIntelligence.execute_decisions (lines 188-228): sequential execution
of the decisions in order, one result record per decision. -/
def execute_decisions (ex : Executor) (decisions : List Decision) : List ExecResult :=
  decisions.map (executeOne ex)

/-- One row of the Mongo $group aggregation of get_sku_performance: per
campaign_id sums of spend, impressions, clicks, conversions, the average
roas and the number of data points. -/
structure MetricGroup where
  id : String
  total_spend : ℚ
  total_impressions : ℤ
  total_clicks : ℤ
  total_conversions : ℤ
  avg_roas : ℚ
  data_points : ℤ
deriving DecidableEq

/-- SKUIntelligence.get_sku_performance (lines 230-317) on its happy path.
`campaigns` is the get_campaigns_by_sku result, `results` the aggregation
rows. With no campaigns the source returns the all-zero dict (days_running
0); otherwise days_running is the hard-coded constant 7. The exception
branch of the source (also all zeros) has no counterpart because the
embedding is total. -/
def get_sku_performance (cfg : Config) (campaigns : List Campaign)
    (results : List MetricGroup) : Performance :=
  if campaigns.isEmpty then
    { total_impressions := 0, total_spend := 0, avg_roas := 0,
      confidence_score := 0, days_running := 0, campaigns := [] }
  else
    let total_spend := (results.map MetricGroup.total_spend).sum
    let total_impressions := (results.map MetricGroup.total_impressions).sum
    let total_conversions := (results.map MetricGroup.total_conversions).sum
    let avg_roas := if total_spend > 0 then (total_conversions : ℚ) / total_spend else 0
    let total_data_points := (results.map MetricGroup.data_points).sum
    let confidence_score :=
      min ((total_data_points : ℚ) / cfg.minimum_data_points_for_decisions) 1
    let days_running : ℤ := 7
    let campaign_performance := results.map (fun r =>
      (r.id, { spend := r.total_spend, impressions := r.total_impressions,
               clicks := r.total_clicks, conversions := r.total_conversions,
               roas := r.avg_roas, data_points := r.data_points : CampaignPerf }))
    { total_impressions := total_impressions, total_spend := total_spend,
      avg_roas := avg_roas, confidence_score := confidence_score,
      days_running := days_running, campaigns := campaign_performance }

/-- The decision_log document built by log_decisions (lines 319-338). -/
structure DecisionLog where
  sku_id : String
  client_id : String
  timestamp : ℤ
  decision_type : String
  mode : String
  decisions : List Decision
  execution_results : List ExecResult
  data_points_used : ℕ
  confidence_score : ℚ
deriving DecidableEq

/-- Model of len(r.get("campaigns", {})) for an execution-result record r:
execution results carry only decision, success and message keys, so the
lookup always yields the empty dict and the length is 0. -/
def execResultCampaignsLen (_ : ExecResult) : ℕ := 0

/-- SKUIntelligence.log_decisions (lines 319-338): builds one decision_log
document and appends it to the intelligence_decisions collection, modelled
as a list (insert_one = append; nothing is ever updated). The
data_points_used field sums len(r.get("campaigns", {})) over the execution
results and confidence_score is the hard-coded 0.8. -/
def log_decisions (now : ℤ) (log : List DecisionLog) (sku_id client_id : String)
    (decisions : List Decision) (mode : String)
    (execution_results : List ExecResult) : List DecisionLog :=
  log ++ [{
    sku_id := sku_id
    client_id := client_id
    timestamp := now
    decision_type := "hourly_optimization"
    mode := mode
    decisions := decisions
    execution_results := execution_results
    data_points_used := (execution_results.map execResultCampaignsLen).sum
    confidence_score := 8 / 10 }]

/-- The external state touched by one make_hourly_decisions cycle: the SKU
lookup result (client_id when the SKU exists), the campaign list, the
aggregation rows, the execution collaborator, the decision-log collection
and the clock. -/
structure World where
  sku_client_id : Option String
  campaigns : List Campaign
  metric_groups : List MetricGroup
  executor : Executor
  decision_log : List DecisionLog
  now : ℤ

/-- The success/failure dict returned by make_hourly_decisions. -/
structure HourlyResult where
  success : Bool
  message : String
  mode : String
  decisions : List Decision
  execution_results : List ExecResult

/-- SKUIntelligence.make_hourly_decisions (lines 30-65): fetch SKU, fetch
performance, determine mode, derive decisions, execute, log. Returns the
result dict and the updated world (with the grown decision log). -/
def make_hourly_decisions (cfg : Config) (w : World) (sku_id : String) :
    HourlyResult × World :=
  match w.sku_client_id with
  | none =>
    ({ success := false, message := "SKU not found", mode := "",
       decisions := [], execution_results := [] }, w)
  | some client_id =>
    let performance := get_sku_performance cfg w.campaigns w.metric_groups
    let mode := determine_mode cfg performance
    let decisions :=
      if mode == "explore" then explore_mode_decisions cfg w.campaigns performance
      else exploit_mode_decisions cfg w.campaigns performance
    let execution_results := execute_decisions w.executor decisions
    let log := log_decisions w.now w.decision_log sku_id client_id decisions mode
      execution_results
    ({ success := true, message := "", mode := mode, decisions := decisions,
       execution_results := execution_results },
     { w with decision_log := log })

/-! Metrics normalization service
(app/services/integration_metrics_service.py). -/

/-- A vendor payload dict: every numeric field the normalizer may read,
each possibly absent. Values are numbers (ℚ); non-numeric payload values
are outside this model. -/
structure Payload where
  spend : Option ℚ := none
  total_spend : Option ℚ := none
  cost : Option ℚ := none
  impressions : Option ℚ := none
  total_impressions : Option ℚ := none
  clicks : Option ℚ := none
  total_clicks : Option ℚ := none
  conversions : Option ℚ := none
  total_conversions : Option ℚ := none
  ctr : Option ℚ := none
  cpc : Option ℚ := none
  roas : Option ℚ := none
  cpm : Option ℚ := none
  data_quality_score : Option ℚ := none
deriving DecidableEq

/-- Python truthiness fold for an alias chain a or b or ... or 0: the first
present, nonzero value, else 0 (None and 0/0.0 are falsy). -/
def firstTruthy : List (Option ℚ) → ℚ
  | [] => 0
  | o :: rest =>
    match o with
    | some x => if x ≠ 0 then x else firstTruthy rest
    | none => firstTruthy rest

/-- Python int() truncation toward zero on a rational. -/
def pyInt (q : ℚ) : ℤ := q.num.tdiv q.den

/-- The canonical NormalizedMetrics record
(app/schemas/integration_metrics.py shape as used by the service); the
date window is modelled as two integer timestamps. -/
structure NormalizedMetrics where
  vendor : String
  campaign_id : String
  platform : Option String
  account_id : Option String
  window_start : ℤ
  window_end : ℤ
  spend : ℚ
  impressions : ℤ
  clicks : ℤ
  conversions : ℤ
  ctr : ℚ
  cpc : ℚ
  roas : ℚ
  cpm : ℚ
  data_quality_score : ℚ
deriving DecidableEq

/-- IntegrationMetricsService.normalize_payload
(integration_metrics_service.py lines 26-54): defensive alias mapping with
Python or-chains (so a present-but-zero spend falls through to cost), int()
truncation for count fields, and guarded derivations of ctr, cpc, roas,
cpm. -/
def normalize_payload (vendor : String) (payload : Payload) (campaign_id : String)
    (platform account_id : Option String) (window_start window_end : ℤ) :
    NormalizedMetrics :=
  let spend := firstTruthy [payload.spend, payload.total_spend, payload.cost]
  let impressions := pyInt (firstTruthy [payload.impressions, payload.total_impressions])
  let clicks := pyInt (firstTruthy [payload.clicks, payload.total_clicks])
  let conversions := pyInt (firstTruthy [payload.conversions, payload.total_conversions])
  let ctr := if impressions > 0 then (clicks : ℚ) / (impressions : ℚ) * 100
             else firstTruthy [payload.ctr]
  let cpc := if clicks > 0 then spend / (clicks : ℚ) else firstTruthy [payload.cpc]
  let roas := if spend > 0 then (conversions : ℚ) / spend else firstTruthy [payload.roas]
  let cpm := if impressions > 0 then spend / (impressions : ℚ) * 1000
             else firstTruthy [payload.cpm]
  { vendor := vendor, campaign_id := campaign_id, platform := platform,
    account_id := account_id, window_start := window_start, window_end := window_end,
    spend := spend, impressions := impressions, clicks := clicks,
    conversions := conversions, ctr := ctr, cpc := cpc, roas := roas, cpm := cpm,
    data_quality_score := payload.data_quality_score.getD 0 }

/-! Integration middleware (app/integrations/middleware.py). -/

/-- IntegrationMiddleware._calculate_variance (lines 443-450): population
variance normalized by the squared mean, i.e. a squared coefficient of
variation; 0 for lists of at most one element and 0 when the mean is 0. -/
def _calculate_variance (values : List ℚ) : ℚ :=
  if values.length ≤ 1 then 0
  else
    let mean := values.sum / (values.length : ℚ)
    let variance := (values.map (fun x => (x - mean) ^ 2)).sum / (values.length : ℚ)
    if mean ≠ 0 then variance / mean ^ 2 else 0

/-- IntegrationMiddleware._calculate_data_quality_score (lines 419-441):
0.0 for no sources, 0.8 for one source, otherwise 1 minus the average of
the spend and impression coefficients of variation, clamped into [0, 1].
Source payloads are read with .get(key, 0). -/
def _calculate_data_quality_score (data_sources : List (String × Payload)) : ℚ :=
  if data_sources.isEmpty then 0
  else if data_sources.length = 1 then 8 / 10
  else
    let source_data := data_sources.map Prod.snd
    let spend_values := source_data.map (fun d => d.spend.getD 0)
    let impression_values := source_data.map (fun d => d.impressions.getD 0)
    let spend_variance := _calculate_variance spend_values
    let impression_variance := _calculate_variance impression_values
    let quality_score := max 0 (1 - (spend_variance + impression_variance) / 2)
    min quality_score 1

/-- The pure aggregate of aggregate_performance_data (lines 79-169): totals
accumulated from the per-source normalized metrics, plus the derived
averages and the data-quality score. -/
structure Aggregated where
  total_spend : ℚ
  total_impressions : ℤ
  total_clicks : ℤ
  total_conversions : ℤ
  data_quality_score : ℚ
  avg_roas : ℚ
  avg_ctr : ℚ
  avg_cpc : ℚ
deriving DecidableEq

/-- IntegrationMiddleware.aggregate_performance_data (lines 79-169), pure
core: given the up-to-two (source_name, payload) pairs actually collected,
the source returns a failure dict when there are none, and otherwise sums
the normalized per-source metrics and derives avg_roas, avg_ctr, avg_cpc
with guarded division. Persistence of raw and normalized snapshots is
side-effect only and not modelled. -/
def aggregate_performance_core (campaign_id : String) (platform account_id : Option String)
    (window_start window_end : ℤ) (sources : List (String × Payload)) :
    Option Aggregated :=
  if sources.isEmpty then none
  else
    let norms := sources.map (fun sp =>
      normalize_payload sp.1 sp.2 campaign_id platform account_id window_start window_end)
    let total_spend := (norms.map NormalizedMetrics.spend).sum
    let total_impressions := (norms.map NormalizedMetrics.impressions).sum
    let total_clicks := (norms.map NormalizedMetrics.clicks).sum
    let total_conversions := (norms.map NormalizedMetrics.conversions).sum
    some {
      total_spend := total_spend
      total_impressions := total_impressions
      total_clicks := total_clicks
      total_conversions := total_conversions
      data_quality_score := _calculate_data_quality_score sources
      avg_roas := if total_spend > 0 then (total_conversions : ℚ) / total_spend else 0
      avg_ctr := if total_impressions > 0 then
          (total_clicks : ℚ) / (total_impressions : ℚ) * 100 else 0
      avg_cpc := if total_clicks > 0 then total_spend / (total_clicks : ℚ) else 0 }

/-- Result dict of the middleware budget-change path: success flag,
optional winning source and message. -/
structure MwResult where
  success : Bool
  source : Option String
  message : String
deriving DecidableEq

/-- One registered integrator: whether hasattr(integrator,
"update_campaign_budget") holds, and the call itself, which returns a
success Bool or raises. -/
structure IntegratorB where
  has_update_campaign_budget : Bool
  update_campaign_budget : String → ℚ → Except String Bool

/-- Exceptions a platform connector can raise on update_campaign_budget:
RateLimitError or anything else. -/
inductive PlatformErr where
  | rateLimit
  | other (msg : String)
deriving DecidableEq

/-- One registered platform connector; update_campaign_budget is indexed by
the retry attempt number so repeated attempts may behave differently. -/
structure PlatformB where
  update_campaign_budget : String → ℚ → ℕ → Except PlatformErr Bool

/-- IntegrationMiddleware state: registration-ordered integrator and
platform registries plus the fallback_enabled flag (True in __init__). -/
structure IntegrationMiddleware where
  platforms : List (String × PlatformB)
  integrators : List (String × IntegratorB)
  fallback_enabled : Bool

/-- IntegrationMiddleware._try_integrator_budget_change (lines 246-263):
walk the integrators in registration order; skip those without the method;
a raising or false-returning integrator is skipped too; first success wins;
otherwise the "All integrators failed" record. -/
def _try_integrator_budget_change (integrators : List (String × IntegratorB))
    (campaign_id : String) (new_budget : ℚ) : MwResult :=
  match integrators with
  | [] => { success := false, source := none, message := "All integrators failed" }
  | (nm, ig) :: rest =>
    if ig.has_update_campaign_budget then
      match ig.update_campaign_budget campaign_id new_budget with
      | Except.ok true =>
        { success := true, source := some nm, message := "Budget updated via " ++ nm }
      | Except.ok false => _try_integrator_budget_change rest campaign_id new_budget
      | Except.error _ => _try_integrator_budget_change rest campaign_id new_budget
    else _try_integrator_budget_change rest campaign_id new_budget

/-- The while attempts < 3 retry loop of _try_platform_budget_change: stop
at the first truthy return or the first exception; after three falsy
returns the last value stands. -/
def attempt3 (f : ℕ → Except PlatformErr Bool) : Except PlatformErr Bool :=
  match f 0 with
  | Except.ok true => Except.ok true
  | Except.ok false =>
    match f 1 with
    | Except.ok true => Except.ok true
    | Except.ok false => f 2
    | e => e
  | e => e

/-- IntegrationMiddleware._try_platform_budget_change (lines 265-297):
unknown platform fails fast; otherwise up to three attempts; RateLimitError
is reported as a rate-limited failure, other exceptions as a direct API
error. -/
def _try_platform_budget_change (platforms : List (String × PlatformB))
    (campaign_id : String) (new_budget : ℚ) (platform : String) : MwResult :=
  match platforms.find? (fun pp => pp.1 == platform) with
  | none => { success := false, source := none,
              message := "Platform " ++ platform ++ " not available" }
  | some pp =>
    match attempt3 (pp.2.update_campaign_budget campaign_id new_budget) with
    | Except.ok true =>
      { success := true, source := some ("direct_" ++ platform),
        message := "Budget updated via direct " ++ platform ++ " API" }
    | Except.ok false =>
      { success := false, source := none, message := "Direct " ++ platform ++ " API failed" }
    | Except.error PlatformErr.rateLimit =>
      { success := false, source := none, message := "Rate limited on " ++ platform }
    | Except.error (PlatformErr.other m) =>
      { success := false, source := none,
        message := "Direct " ++ platform ++ " API error: " ++ m }

/-- IntegrationMiddleware.execute_budget_change (lines 39-77). The Bool of
the result pair records whether the direct platform path was attempted.
When the integrator path fails and fallback is disabled, the source reaches
the line platform_result.get("message", "") with platform_result unbound:
the NameError is caught by the surrounding except handler, which returns
the structured record success False with a "Budget change execution
failed: ..." message (the message below paraphrases Python wording without
quote characters). -/
def execute_budget_change (mw : IntegrationMiddleware) (campaign_id : String)
    (new_budget : ℚ) (platform : String) (_account_id : String) : MwResult × Bool :=
  let integrator_result := _try_integrator_budget_change mw.integrators campaign_id new_budget
  if integrator_result.success then (integrator_result, false)
  else if mw.fallback_enabled then
    let platform_result := _try_platform_budget_change mw.platforms campaign_id new_budget platform
    if platform_result.success then (platform_result, true)
    else ({ success := false, source := none,
            message := "Both integrator and direct platform API failed" }, true)
  else
    ({ success := false, source := none,
       message := "Budget change execution failed: name platform_result is not defined" },
     false)

/-- One integrator attempt fails: the method is missing, or the call does
not return a truthy success (it returns False or raises). -/
def integratorAttemptFails (campaign_id : String) (new_budget : ℚ)
    (e : String × IntegratorB) : Prop :=
  e.2.has_update_campaign_budget = false ∨
    e.2.update_campaign_budget campaign_id new_budget ≠ Except.ok true

/-! Generic facts about the stable insertion sort. -/

theorem mem_ordInsert {α : Type} (le : α → α → Bool) (c x : α) (l : List α) :
    x ∈ ordInsert le c l ↔ x = c ∨ x ∈ l := by
  induction l with
  | nil => simp [ordInsert]
  | cons d ds ih =>
    by_cases h : le c d
    · simp [ordInsert, h]
    · simp only [ordInsert, h, if_neg, Bool.false_eq_true, ite_false, List.mem_cons, ih]
      tauto

theorem perm_ordInsert {α : Type} (le : α → α → Bool) (c : α) (l : List α) :
    List.Perm (ordInsert le c l) (c :: l) := by
  induction l with
  | nil => exact List.Perm.refl _
  | cons d ds ih =>
    by_cases h : le c d
    · simp [ordInsert, h]
    · simp only [ordInsert, h, Bool.false_eq_true, ite_false]
      exact List.Perm.trans (List.Perm.cons d ih) (List.Perm.swap c d ds)

theorem perm_ordSort {α : Type} (le : α → α → Bool) (l : List α) :
    List.Perm (ordSort le l) l := by
  induction l with
  | nil => exact List.Perm.refl _
  | cons a l ih =>
    exact List.Perm.trans (perm_ordInsert le a (ordSort le l)) (List.Perm.cons a ih)

theorem pairwise_ordInsert {α : Type} (le : α → α → Bool)
    (htot : ∀ a b, le a b = true ∨ le b a = true)
    (htrans : ∀ a b c, le a b = true → le b c = true → le a c = true)
    (c : α) (l : List α) (h : l.Pairwise (fun a b => le a b = true)) :
    (ordInsert le c l).Pairwise (fun a b => le a b = true) := by
  induction l with
  | nil => simp [ordInsert]
  | cons d ds ih =>
    rcases List.pairwise_cons.mp h with ⟨hd, hds⟩
    by_cases hcd : le c d
    · simp only [ordInsert, hcd, ite_true]
      refine List.pairwise_cons.mpr ⟨?_, h⟩
      intro x hx
      rcases List.mem_cons.mp hx with rfl | hx
      · exact hcd
      · exact htrans c d x hcd (hd x hx)
    · simp only [ordInsert, hcd, Bool.false_eq_true, ite_false]
      refine List.pairwise_cons.mpr ⟨?_, ih hds⟩
      intro x hx
      rcases (mem_ordInsert le c x ds).mp hx with rfl | hx
      · rcases htot x d with h1 | h1
        · exact absurd h1 hcd
        · exact h1
      · exact hd x hx

theorem pairwise_ordSort {α : Type} (le : α → α → Bool)
    (htot : ∀ a b, le a b = true ∨ le b a = true)
    (htrans : ∀ a b c, le a b = true → le b c = true → le a c = true)
    (l : List α) : (ordSort le l).Pairwise (fun a b => le a b = true) := by
  induction l with
  | nil => simp [ordSort]
  | cons a l ih => exact pairwise_ordInsert le htot htrans a (ordSort le l) ih

theorem pairwise_take_drop {α : Type} {R : α → α → Prop} {l : List α}
    (h : l.Pairwise R) (n : ℕ) :
    ∀ a ∈ l.take n, ∀ b ∈ l.drop n, R a b := by
  have hsplit := List.take_append_drop n l
  rw [← hsplit] at h
  exact (List.pairwise_append.mp h).2.2

/-! Claim theorems. -/

/-- C1: determine_mode is a pure function of (days_running, confidence_score,
total_impressions, avg_roas) satisfying the four-rule precedence exactly
under the default configuration, first match winning; in particular
days_running=3 gives explore regardless of the other fields,
days_running=10 with impressions=500 gives explore, days_running=10 with
impressions=5000, confidence=0.9, roas=3.5 gives exploit, and the same with
confidence=0.5 gives explore. -/
theorem determine_mode_four_rule_precedence :
    (∀ performance : Performance,
      determine_mode MVP_CONFIG performance =
        if performance.days_running < 7 then "explore"
        else if performance.total_impressions < 1000 then "explore"
        else if performance.confidence_score > 8 / 10 ∧ performance.avg_roas > 2 then "exploit"
        else "explore")
    ∧ (∀ (imps : ℤ) (spend roas conf : ℚ) (camps : List (String × CampaignPerf)),
        determine_mode MVP_CONFIG ⟨imps, spend, roas, conf, 3, camps⟩ = "explore")
    ∧ (∀ (spend roas conf : ℚ) (camps : List (String × CampaignPerf)),
        determine_mode MVP_CONFIG ⟨500, spend, roas, conf, 10, camps⟩ = "explore")
    ∧ (∀ (spend : ℚ) (camps : List (String × CampaignPerf)),
        determine_mode MVP_CONFIG ⟨5000, spend, 7 / 2, 9 / 10, 10, camps⟩ = "exploit")
    ∧ (∀ (spend : ℚ) (camps : List (String × CampaignPerf)),
        determine_mode MVP_CONFIG ⟨5000, spend, 7 / 2, 1 / 2, 10, camps⟩ = "explore") := by
  refine ⟨fun performance => rfl, ?_, ?_, ?_, ?_⟩
  · intro imps spend roas conf camps
    norm_num [determine_mode, MVP_CONFIG]
  · intro spend roas conf camps
    norm_num [determine_mode, MVP_CONFIG]
  · intro spend camps
    norm_num [determine_mode, MVP_CONFIG]
  · intro spend camps
    norm_num [determine_mode, MVP_CONFIG]

/-- C4: get_sku_performance returns the hard-coded constant days_running = 7
whenever the SKU has at least one campaign and 0 when it has none, so under
the default configuration (explore_mode_duration_days = 7) the campaign-age
rule of determine_mode is never satisfied for a SKU with campaigns. -/
theorem get_sku_performance_days_running_constant :
    (∀ (cfg : Config) (results : List MetricGroup),
        (get_sku_performance cfg [] results).days_running = 0)
    ∧ (∀ (cfg : Config) (campaigns : List Campaign) (results : List MetricGroup),
        campaigns ≠ [] → (get_sku_performance cfg campaigns results).days_running = 7)
    ∧ (∀ (campaigns : List Campaign) (results : List MetricGroup),
        campaigns ≠ [] →
        ¬ ((get_sku_performance MVP_CONFIG campaigns results).days_running <
           MVP_CONFIG.explore_mode_duration_days)) := by
  refine ⟨fun cfg results => by simp [get_sku_performance], ?_, ?_⟩
  · intro cfg campaigns results h
    cases campaigns with
    | nil => exact absurd rfl h
    | cons c cs => simp [get_sku_performance]
  · intro campaigns results h
    cases campaigns with
    | nil => exact absurd rfl h
    | cons c cs => norm_num [get_sku_performance, MVP_CONFIG]

/-- Witness for C4 at a concrete one-campaign SKU. -/
theorem get_sku_performance_days_running_constant_witness :
    (get_sku_performance MVP_CONFIG [⟨"c1", "active", 1000⟩] []).days_running = 7 ∧
    ¬ ((get_sku_performance MVP_CONFIG [⟨"c1", "active", 1000⟩] []).days_running <
       MVP_CONFIG.explore_mode_duration_days) :=
  ⟨get_sku_performance_days_running_constant.2.1 MVP_CONFIG _ [] (by simp),
   get_sku_performance_days_running_constant.2.2 _ [] (by simp)⟩

/-- Helper: the coefficient of variation of two equal values is 0 (either
the mean is 0, or every squared deviation from the mean is 0). -/
theorem variance_pair_same (a : ℚ) : _calculate_variance [a, a] = 0 := by
  simp only [_calculate_variance, List.length_cons, List.length_nil, List.sum_cons,
    List.sum_nil, List.map_cons, List.map_nil]
  norm_num

/-- C5: the data-quality score is 0.0 for no sources, exactly 0.8 for one
source, and for two or more sources equals 1 minus the average of the spend
and impression coefficients of variation clamped into [0, 1], where the
coefficient of variation of a short list is 0 and otherwise is the
population variance divided by the squared mean (0 when the mean is 0); two
identical sources score exactly 1. -/
theorem data_quality_score_spec :
    (_calculate_data_quality_score [] = 0)
    ∧ (∀ s : String × Payload, _calculate_data_quality_score [s] = 8 / 10)
    ∧ (∀ srcs : List (String × Payload), 2 ≤ srcs.length →
        _calculate_data_quality_score srcs =
          min (max 0 (1 -
            (_calculate_variance (srcs.map (fun sp => sp.2.spend.getD 0)) +
             _calculate_variance (srcs.map (fun sp => sp.2.impressions.getD 0))) / 2)) 1
        ∧ 0 ≤ _calculate_data_quality_score srcs
        ∧ _calculate_data_quality_score srcs ≤ 1)
    ∧ (∀ values : List ℚ, values.length ≤ 1 → _calculate_variance values = 0)
    ∧ (∀ values : List ℚ, 2 ≤ values.length →
        values.sum / (values.length : ℚ) = 0 → _calculate_variance values = 0)
    ∧ (∀ values : List ℚ, 2 ≤ values.length →
        values.sum / (values.length : ℚ) ≠ 0 →
        _calculate_variance values =
          ((values.map (fun x => (x - values.sum / (values.length : ℚ)) ^ 2)).sum /
            (values.length : ℚ)) / (values.sum / (values.length : ℚ)) ^ 2)
    ∧ (∀ (nm1 nm2 : String) (p : Payload),
        _calculate_data_quality_score [(nm1, p), (nm2, p)] = 1) := by
  have hlen1 : ∀ values : List ℚ, values.length ≤ 1 → _calculate_variance values = 0 := by
    intro values h
    simp [_calculate_variance, h]
  have hform : ∀ srcs : List (String × Payload), 2 ≤ srcs.length →
      _calculate_data_quality_score srcs =
        min (max 0 (1 -
          (_calculate_variance (srcs.map (fun sp => sp.2.spend.getD 0)) +
           _calculate_variance (srcs.map (fun sp => sp.2.impressions.getD 0))) / 2)) 1 := by
    intro srcs h
    have hne : srcs.isEmpty = false := by
      cases srcs with
      | nil => simp at h
      | cons s ss => rfl
    have hlen : srcs.length ≠ 1 := by omega
    simp only [_calculate_data_quality_score, hne, Bool.false_eq_true, ite_false, hlen,
      if_false, List.map_map]
    rfl
  refine ⟨by simp [_calculate_data_quality_score], ?_, ?_, hlen1, ?_, ?_, ?_⟩
  · intro s
    simp [_calculate_data_quality_score]
  · intro srcs h
    refine ⟨hform srcs h, ?_, ?_⟩
    · rw [hform srcs h]
      exact le_min (le_max_left 0 _) zero_le_one
    · rw [hform srcs h]
      exact min_le_right _ 1
  · intro values h hmean
    have hlen : ¬ (values.length ≤ 1) := by omega
    simp [_calculate_variance, hlen, hmean]
  · intro values h hmean
    have hlen : ¬ (values.length ≤ 1) := by omega
    simp [_calculate_variance, hlen, hmean]
  · intro nm1 nm2 p
    have h2 : (2 : ℕ) ≤ ([(nm1, p), (nm2, p)] : List (String × Payload)).length := by simp
    rw [hform _ h2]
    simp only [List.map_cons, List.map_nil]
    rw [variance_pair_same, variance_pair_same]
    norm_num

/-- Witness for C5: the two-or-more-sources clause applied to a concrete
pair of empty payloads, and the coefficient-of-variation clauses applied to
concrete lists. -/
theorem data_quality_score_spec_witness :
    (0 ≤ _calculate_data_quality_score [("integrator", {}), ("platform", {})]
      ∧ _calculate_data_quality_score [("integrator", {}), ("platform", {})] ≤ 1)
    ∧ _calculate_variance [(5 : ℚ)] = 0
    ∧ _calculate_variance [(3 : ℚ), -3] = 0
    ∧ _calculate_variance [(1 : ℚ), 3] =
        ((([(1 : ℚ), 3]).map (fun x => (x - ([(1 : ℚ), 3]).sum / ((([(1 : ℚ), 3]).length : ℕ) : ℚ)) ^ 2)).sum /
          ((([(1 : ℚ), 3]).length : ℕ) : ℚ)) / (([(1 : ℚ), 3]).sum / ((([(1 : ℚ), 3]).length : ℕ) : ℚ)) ^ 2 :=
  ⟨⟨(data_quality_score_spec.2.2.1 _ (by simp)).2.1,
    (data_quality_score_spec.2.2.1 _ (by simp)).2.2⟩,
   data_quality_score_spec.2.2.2.1 _ (by simp),
   data_quality_score_spec.2.2.2.2.1 _ (by simp) (by norm_num),
   data_quality_score_spec.2.2.2.2.2.1 _ (by simp) (by norm_num)⟩

/-- C6: the derived averages of aggregate_performance_data are computed
with guarded division over the accumulated normalized totals: avg_roas is
conversions over spend and 0 when spend is 0, avg_ctr is clicks over
impressions times 100 and 0 when impressions are 0, avg_cpc is spend over
clicks and 0 when clicks are 0. -/
theorem aggregate_derived_metrics_guarded :
    ∀ (cid : String) (pf aid : Option String) (ws we : ℤ)
      (sources : List (String × Payload)) (a : Aggregated),
      aggregate_performance_core cid pf aid ws we sources = some a →
      ((a.total_spend = 0 → a.avg_roas = 0) ∧
       (a.total_spend > 0 → a.avg_roas = (a.total_conversions : ℚ) / a.total_spend) ∧
       (a.total_impressions = 0 → a.avg_ctr = 0) ∧
       (a.total_impressions > 0 →
         a.avg_ctr = (a.total_clicks : ℚ) / (a.total_impressions : ℚ) * 100) ∧
       (a.total_clicks = 0 → a.avg_cpc = 0) ∧
       (a.total_clicks > 0 → a.avg_cpc = a.total_spend / (a.total_clicks : ℚ))) := by
  intro cid pf aid ws we sources a h
  by_cases he : sources.isEmpty
  · simp [aggregate_performance_core, he] at h
  · simp only [aggregate_performance_core, he, Bool.false_eq_true, ite_false,
      Option.some.injEq] at h
    subst h
    refine ⟨?_, ?_, ?_, ?_, ?_, ?_⟩ <;> intro h0 <;> simp_all

/-- Concrete vendor payload used by witnesses. -/
def payloadW : Payload :=
  { spend := some 10, impressions := some 1000, clicks := some 5, conversions := some 30 }

/-- The aggregate of a single payloadW source. -/
def aggW : Aggregated :=
  { total_spend := 10, total_impressions := 1000, total_clicks := 5,
    total_conversions := 30, data_quality_score := 8 / 10, avg_roas := 3,
    avg_ctr := 1 / 2, avg_cpc := 2 }

/-- Witness for C6 at a concrete single-source aggregation. -/
theorem aggregate_derived_metrics_guarded_witness :
    aggregate_performance_core "c1" none none 0 1 [("platform", payloadW)] = some aggW
    ∧ aggW.avg_roas = (aggW.total_conversions : ℚ) / aggW.total_spend := by
  have h : aggregate_performance_core "c1" none none 0 1 [("platform", payloadW)] = some aggW := by
    norm_num [aggregate_performance_core, normalize_payload, firstTruthy, pyInt,
      _calculate_data_quality_score, payloadW, aggW]
  exact ⟨h, (aggregate_derived_metrics_guarded "c1" none none 0 1 _ aggW h).2.1
    (by norm_num [aggW])⟩

/-- C7: normalize_payload is total by construction (it is a Lean function
into NormalizedMetrics over numeric-optional payload fields) and
deterministic, and its fields follow the defensive alias and
guarded-division rules of the source: spend from the spend,
total_spend, cost truthiness chain defaulting 0; ctr from
clicks/impressions when impressions are positive, otherwise the payload ctr
or 0; cpc from spend/clicks when clicks are positive; roas from
conversions/spend when spend is positive; cpm from spend/impressions times
1000 when impressions are positive. -/
theorem normalize_payload_total_deterministic :
    (∀ (vendor : String) (payload : Payload) (campaign_id : String)
       (platform account_id : Option String) (ws we : ℤ),
      (normalize_payload vendor payload campaign_id platform account_id ws we).spend =
        firstTruthy [payload.spend, payload.total_spend, payload.cost]
      ∧ (normalize_payload vendor payload campaign_id platform account_id ws we).impressions =
          pyInt (firstTruthy [payload.impressions, payload.total_impressions])
      ∧ (normalize_payload vendor payload campaign_id platform account_id ws we).clicks =
          pyInt (firstTruthy [payload.clicks, payload.total_clicks])
      ∧ (normalize_payload vendor payload campaign_id platform account_id ws we).conversions =
          pyInt (firstTruthy [payload.conversions, payload.total_conversions])
      ∧ (normalize_payload vendor payload campaign_id platform account_id ws we).ctr =
          (if (normalize_payload vendor payload campaign_id platform account_id ws we).impressions > 0 then
            ((normalize_payload vendor payload campaign_id platform account_id ws we).clicks : ℚ) /
              ((normalize_payload vendor payload campaign_id platform account_id ws we).impressions : ℚ) * 100
          else firstTruthy [payload.ctr])
      ∧ (normalize_payload vendor payload campaign_id platform account_id ws we).cpc =
          (if (normalize_payload vendor payload campaign_id platform account_id ws we).clicks > 0 then
            (normalize_payload vendor payload campaign_id platform account_id ws we).spend /
              ((normalize_payload vendor payload campaign_id platform account_id ws we).clicks : ℚ)
          else firstTruthy [payload.cpc])
      ∧ (normalize_payload vendor payload campaign_id platform account_id ws we).roas =
          (if (normalize_payload vendor payload campaign_id platform account_id ws we).spend > 0 then
            ((normalize_payload vendor payload campaign_id platform account_id ws we).conversions : ℚ) /
              (normalize_payload vendor payload campaign_id platform account_id ws we).spend
          else firstTruthy [payload.roas])
      ∧ (normalize_payload vendor payload campaign_id platform account_id ws we).cpm =
          (if (normalize_payload vendor payload campaign_id platform account_id ws we).impressions > 0 then
            (normalize_payload vendor payload campaign_id platform account_id ws we).spend /
              ((normalize_payload vendor payload campaign_id platform account_id ws we).impressions : ℚ) * 1000
          else firstTruthy [payload.cpm])
      ∧ (normalize_payload vendor payload campaign_id platform account_id ws we).vendor = vendor
      ∧ (normalize_payload vendor payload campaign_id platform account_id ws we).campaign_id =
          campaign_id)
    ∧ (∀ (vendor : String) (p1 p2 : Payload) (campaign_id : String)
         (platform account_id : Option String) (ws we : ℤ),
        p1 = p2 →
        normalize_payload vendor p1 campaign_id platform account_id ws we =
          normalize_payload vendor p2 campaign_id platform account_id ws we) := by
  constructor
  · intro vendor payload campaign_id platform account_id ws we
    exact ⟨rfl, rfl, rfl, rfl, rfl, rfl, rfl, rfl, rfl, rfl⟩
  · intro vendor p1 p2 campaign_id platform account_id ws we h
    rw [h]

/-- Witness for C7: two calls on the same concrete payload produce the same
record (the round-trip determinism of the spec). -/
theorem normalize_payload_total_deterministic_witness :
    normalize_payload "integrator" payloadW "c1" none none 0 1 =
      normalize_payload "integrator" payloadW "c1" none none 0 1 :=
  normalize_payload_total_deterministic.2 "integrator" payloadW payloadW "c1" none none 0 1 rfl

/-- Helper: the result record built for a decision always carries that
decision. -/
theorem executeOne_decision (ex : Executor) (d : Decision) : (executeOne ex d).decision = d := by
  cases d with
  | budget_allocation cid ob nb rsn =>
    cases h : ex.update_campaign_budget cid nb <;> simp [executeOne, h]
  | pause_campaign cid =>
    cases h : ex.pause_campaign cid <;> simp [executeOne, h]
  | activate_campaign cid =>
    cases h : ex.activate_campaign cid <;> simp [executeOne, h]

/-- C8: execute_decisions returns results 1:1 with the decisions, in order,
each carrying the decision, a success flag and a fixed message keyed by
decision type and outcome; a decision-level exception becomes a
failed-result record with an "Execution error: ..." message instead of
aborting the batch (the 1:1 map equality holds for every collaborator,
including ones that raise on some decisions). -/
theorem execute_decisions_batch_isolation (ex : Executor) (ds : List Decision) :
    (execute_decisions ex ds).length = ds.length
    ∧ (execute_decisions ex ds).map ExecResult.decision = ds
    ∧ (∀ r ∈ execute_decisions ex ds, ∀ cid ob nb rsn,
        r.decision = Decision.budget_allocation cid ob nb rsn →
        (∀ e, ex.update_campaign_budget cid nb = Except.error e →
          r.success = false ∧ r.message = "Execution error: " ++ e)
        ∧ (∀ b, ex.update_campaign_budget cid nb = Except.ok b →
          r.success = b ∧ r.message =
            (if b then "Budget updated successfully" else "Budget update failed")))
    ∧ (∀ r ∈ execute_decisions ex ds, ∀ cid,
        r.decision = Decision.pause_campaign cid →
        (∀ e, ex.pause_campaign cid = Except.error e →
          r.success = false ∧ r.message = "Execution error: " ++ e)
        ∧ (∀ b, ex.pause_campaign cid = Except.ok b →
          r.success = b ∧ r.message =
            (if b then "Campaign paused successfully" else "Campaign pause failed")))
    ∧ (∀ r ∈ execute_decisions ex ds, ∀ cid,
        r.decision = Decision.activate_campaign cid →
        (∀ e, ex.activate_campaign cid = Except.error e →
          r.success = false ∧ r.message = "Execution error: " ++ e)
        ∧ (∀ b, ex.activate_campaign cid = Except.ok b →
          r.success = b ∧ r.message =
            (if b then "Campaign activated successfully" else "Campaign activation failed"))) := by
  refine ⟨by simp [execute_decisions], ?_, ?_, ?_, ?_⟩
  · have hfun : ExecResult.decision ∘ executeOne ex = id := funext (executeOne_decision ex)
    simp [execute_decisions, List.map_map, hfun]
  · intro r hr cid ob nb rsn hdec
    obtain ⟨d, hd, rfl⟩ := List.mem_map.mp hr
    rw [executeOne_decision] at hdec
    subst hdec
    constructor
    · intro e he
      simp [executeOne, he]
    · intro b hb
      simp [executeOne, hb]
  · intro r hr cid hdec
    obtain ⟨d, hd, rfl⟩ := List.mem_map.mp hr
    rw [executeOne_decision] at hdec
    subst hdec
    constructor
    · intro e he
      simp [executeOne, he]
    · intro b hb
      simp [executeOne, hb]
  · intro r hr cid hdec
    obtain ⟨d, hd, rfl⟩ := List.mem_map.mp hr
    rw [executeOne_decision] at hdec
    subst hdec
    constructor
    · intro e he
      simp [executeOne, he]
    · intro b hb
      simp [executeOne, hb]

/-- An executor whose budget updates raise while the other operations
succeed, used to witness batch isolation. -/
def exErr : Executor :=
  { update_campaign_budget := fun _ _ => Except.error "boom",
    pause_campaign := fun _ => Except.ok true,
    activate_campaign := fun _ => Except.ok true }

/-- The two-decision batch used by the C8 witness: the first decision
raises, the second still executes. -/
def dsW : List Decision :=
  [Decision.budget_allocation "c1" 10 20 "r", Decision.pause_campaign "c2"]

/-- Witness for C8: on a concrete batch whose first decision raises, the
results are still 1:1 with the decisions and the raising decision is
reported as a failed-result record. -/
theorem execute_decisions_batch_isolation_witness :
    (execute_decisions exErr dsW).map ExecResult.decision = dsW
    ∧ ({ decision := Decision.budget_allocation "c1" 10 20 "r", success := false,
         message := "Execution error: boom" } : ExecResult).success = false
    ∧ ({ decision := Decision.budget_allocation "c1" 10 20 "r", success := false,
         message := "Execution error: boom" } : ExecResult).message = "Execution error: boom" := by
  have hmem : ({ decision := Decision.budget_allocation "c1" 10 20 "r", success := false,
                 message := "Execution error: boom" } : ExecResult) ∈
      execute_decisions exErr dsW := by
    simp [execute_decisions, executeOne, exErr, dsW]
  refine ⟨(execute_decisions_batch_isolation exErr dsW).2.1, ?_, ?_⟩
  · exact ((execute_decisions_batch_isolation exErr dsW).2.2.1 _ hmem "c1" 10 20 "r" rfl).1
      "boom" rfl |>.1
  · exact ((execute_decisions_batch_isolation exErr dsW).2.2.1 _ hmem "c1" 10 20 "r" rfl).1
      "boom" rfl |>.2

/-- Helper: when every registered integrator attempt fails, the integrator
path returns the all-integrators-failed record. -/
theorem try_integrator_all_fail (campaign_id : String) (new_budget : ℚ) :
    ∀ integrators : List (String × IntegratorB),
      (∀ e ∈ integrators, integratorAttemptFails campaign_id new_budget e) →
      _try_integrator_budget_change integrators campaign_id new_budget =
        { success := false, source := none, message := "All integrators failed" } := by
  intro l
  induction l with
  | nil => intro _; rfl
  | cons e rest ih =>
    intro h
    obtain ⟨nm, ig⟩ := e
    have hf := h _ (List.mem_cons_self _ _)
    have hrest := ih (fun x hx => h x (List.mem_cons_of_mem _ hx))
    by_cases hhas : ig.has_update_campaign_budget
    · have hu : ig.update_campaign_budget campaign_id new_budget ≠ Except.ok true := by
        rcases hf with hm | hu
        · rw [hhas] at hm
          cases hm
        · exact hu
      cases hcall : ig.update_campaign_budget campaign_id new_budget with
      | ok b =>
        cases b with
        | true => exact absurd hcall hu
        | false => simp [_try_integrator_budget_change, hhas, hcall, hrest]
      | error err => simp [_try_integrator_budget_change, hhas, hcall, hrest]
    · simp [_try_integrator_budget_change, hhas, hrest]

/-- C9: when every registered integrator fails and fallback is disabled,
execute_budget_change returns a structured success-false record and the
direct platform path is never attempted (second component of the result
pair false). In the source this return goes through the catch-all handler:
the fallback-disabled branch leaves platform_result unbound, so building
the combined-failure dict raises NameError, which the surrounding except
converts into the structured failure; no uncaught exception escapes and
the platform connector is never called. -/
theorem execute_budget_change_all_fail_no_fallback
    (mw : IntegrationMiddleware) (campaign_id : String) (new_budget : ℚ)
    (platform account_id : String)
    (hfb : mw.fallback_enabled = false)
    (hall : ∀ e ∈ mw.integrators, integratorAttemptFails campaign_id new_budget e) :
    (execute_budget_change mw campaign_id new_budget platform account_id).1.success = false
    ∧ (execute_budget_change mw campaign_id new_budget platform account_id).2 = false := by
  have h := try_integrator_all_fail campaign_id new_budget mw.integrators hall
  simp [execute_budget_change, h, hfb]

/-- An integrator whose update_campaign_budget method exists but always
returns False. -/
def igFail : IntegratorB :=
  { has_update_campaign_budget := true,
    update_campaign_budget := fun _ _ => Except.ok false }

/-- A platform connector that would succeed immediately if it were called. -/
def pbOk : PlatformB := { update_campaign_budget := fun _ _ _ => Except.ok true }

/-- Middleware with one failing integrator, one healthy platform connector
and fallback disabled. -/
def mwW : IntegrationMiddleware :=
  { platforms := [("google_ads", pbOk)], integrators := [("ig1", igFail)],
    fallback_enabled := false }

/-- Witness for C9 on the concrete middleware mwW. -/
theorem execute_budget_change_all_fail_no_fallback_witness :
    (execute_budget_change mwW "c1" 500 "google_ads" "acct").1.success = false
    ∧ (execute_budget_change mwW "c1" 500 "google_ads" "acct").2 = false := by
  refine execute_budget_change_all_fail_no_fallback mwW "c1" 500 "google_ads" "acct" rfl ?_
  intro e he
  have he2 : e = ("ig1", igFail) := by
    simpa [mwW] using he
  subst he2
  right
  simp [igFail]

/-- Helper: totality of the ascending ROAS comparator. -/
theorem roasAsc_total (performance : Performance) :
    ∀ a b : Campaign,
      decide (performance.campaignRoas a.id ≤ performance.campaignRoas b.id) = true ∨
      decide (performance.campaignRoas b.id ≤ performance.campaignRoas a.id) = true := by
  intro a b
  rcases le_total (performance.campaignRoas a.id) (performance.campaignRoas b.id) with h | h
  · exact Or.inl (decide_eq_true h)
  · exact Or.inr (decide_eq_true h)

/-- Helper: transitivity of the ascending ROAS comparator. -/
theorem roasAsc_trans (performance : Performance) :
    ∀ a b c : Campaign,
      decide (performance.campaignRoas a.id ≤ performance.campaignRoas b.id) = true →
      decide (performance.campaignRoas b.id ≤ performance.campaignRoas c.id) = true →
      decide (performance.campaignRoas a.id ≤ performance.campaignRoas c.id) = true := by
  intro a b c h1 h2
  exact decide_eq_true (le_trans (of_decide_eq_true h1) (of_decide_eq_true h2))

/-- C2: explore_mode_decisions sorts the active campaigns ascending by
per-campaign ROAS (0 when missing), emits decisions only for the at most 3
lowest-ROAS campaigns, gives each the current budget plus one third of 20
percent of the total active budget floored at the minimum budget 100, never
emits a no-op decision, never emits a budget below 100, and never touches
more than 3 campaigns. -/
theorem explore_decisions_spec (cs : List Campaign) (performance : Performance)
    (active sorted : List Campaign) (eb : ℚ)
    (ha : active = cs.filter (fun c => c.status == "active"))
    (hs : sorted = sortByRoasAsc performance active)
    (heb : eb = (active.map Campaign.budget_allocated).sum * (20 / 100)) :
    (explore_mode_decisions MVP_CONFIG cs performance).length ≤ 3
    ∧ List.Perm sorted active
    ∧ sorted.Pairwise (fun a b =>
        performance.campaignRoas a.id ≤ performance.campaignRoas b.id)
    ∧ (∀ a ∈ sorted.take 3, ∀ b ∈ sorted.drop 3,
        performance.campaignRoas a.id ≤ performance.campaignRoas b.id)
    ∧ (∀ d ∈ explore_mode_decisions MVP_CONFIG cs performance,
        ∃ ic ∈ (sorted.take 3).enum,
          d = Decision.budget_allocation ic.2.id ic.2.budget_allocated
                (max (ic.2.budget_allocated + eb / 3) 100)
                ("Exploration allocation for learning (campaign #" ++
                  toString (ic.1 + 1) ++ ")")
          ∧ max (ic.2.budget_allocated + eb / 3) 100 ≠ ic.2.budget_allocated)
    ∧ (∀ d ∈ explore_mode_decisions MVP_CONFIG cs performance,
        100 ≤ d.new_budget ∧ d.new_budget ≠ d.old_budget) := by
  subst ha
  subst hs
  subst heb
  have hpair : (sortByRoasAsc performance (cs.filter (fun c => c.status == "active"))).Pairwise
      (fun a b => performance.campaignRoas a.id ≤ performance.campaignRoas b.id) := by
    unfold sortByRoasAsc
    exact (pairwise_ordSort _ (roasAsc_total performance) (roasAsc_trans performance)
      _).imp (fun h => of_decide_eq_true h)
  have hmem3 : ∀ d ∈ explore_mode_decisions MVP_CONFIG cs performance,
      ∃ ic ∈ ((sortByRoasAsc performance
          (cs.filter (fun c => c.status == "active"))).take 3).enum,
        d = Decision.budget_allocation ic.2.id ic.2.budget_allocated
              (max (ic.2.budget_allocated +
                ((cs.filter (fun c => c.status == "active")).map
                  Campaign.budget_allocated).sum * (20 / 100) / 3) 100)
              ("Exploration allocation for learning (campaign #" ++
                toString (ic.1 + 1) ++ ")")
        ∧ max (ic.2.budget_allocated +
            ((cs.filter (fun c => c.status == "active")).map
              Campaign.budget_allocated).sum * (20 / 100) / 3) 100 ≠
          ic.2.budget_allocated := by
    intro d hd
    by_cases hae : (cs.filter (fun c => c.status == "active")).isEmpty
    · simp [explore_mode_decisions, hae] at hd
    · rw [Bool.not_eq_true] at hae
      simp only [explore_mode_decisions, MVP_CONFIG, hae, Bool.false_eq_true, ite_false] at hd
      obtain ⟨ic, hic, hf⟩ := List.mem_filterMap.mp hd
      split_ifs at hf with hcond
      exact ⟨ic, hic, (Option.some.inj hf).symm, hcond⟩
  refine ⟨?_, ?_, hpair, pairwise_take_drop hpair 3, hmem3, ?_⟩
  · by_cases hae : (cs.filter (fun c => c.status == "active")).isEmpty
    · simp [explore_mode_decisions, hae]
    · rw [Bool.not_eq_true] at hae
      simp only [explore_mode_decisions, hae, Bool.false_eq_true, ite_false]
      refine le_trans (List.length_filterMap_le _ _) ?_
      rw [List.enum_length]
      exact List.length_take_le _ _
  · unfold sortByRoasAsc
    exact perm_ordSort _ _
  · intro d hd
    obtain ⟨ic, _, hdeq, hne⟩ := hmem3 d hd
    subst hdeq
    exact ⟨le_max_right _ _, hne⟩

/-- Concrete performance dict with three campaign ROAS entries, for
witnesses. -/
def perfW : Performance :=
  { total_impressions := 5000, total_spend := 100, avg_roas := 3,
    confidence_score := 1, days_running := 7,
    campaigns := [("c1", ⟨0, 0, 0, 0, 12 / 10, 0⟩), ("c2", ⟨0, 0, 0, 0, 21 / 10, 0⟩),
                  ("c3", ⟨0, 0, 0, 0, 35 / 10, 0⟩)] }

/-- Concrete campaign list (test_explore_mode_decisions fixture shape). -/
def csW : List Campaign :=
  [⟨"c1", "active", 1000⟩, ⟨"c2", "active", 800⟩, ⟨"c3", "active", 1200⟩]

/-- Witness for C2 on the concrete three-campaign SKU. -/
theorem explore_decisions_spec_witness :
    (explore_mode_decisions MVP_CONFIG csW perfW).length ≤ 3
    ∧ (∀ d ∈ explore_mode_decisions MVP_CONFIG csW perfW,
        100 ≤ d.new_budget ∧ d.new_budget ≠ d.old_budget) :=
  ⟨(explore_decisions_spec csW perfW _ _ _ rfl rfl rfl).1,
   (explore_decisions_spec csW perfW _ _ _ rfl rfl rfl).2.2.2.2.2⟩

/-- Helper: a list with a member is not empty (Bool form). -/
theorem isEmpty_false_of_mem {α : Type} {a : α} {l : List α} (h : a ∈ l) :
    l.isEmpty = false := by
  cases l with
  | nil => cases h
  | cons x xs => rfl

/-- Helper: membership is preserved into the descending ROAS sort. -/
theorem mem_sortByRoasDesc (performance : Performance) {c : Campaign} {l : List Campaign}
    (hc : c ∈ l) : c ∈ sortByRoasDesc performance l := by
  unfold sortByRoasDesc
  exact (perm_ordSort _ _).mem_iff.mpr hc

/-- Performance dict carrying only per-campaign ROAS values, for concrete
exploit-mode examples. -/
def mkPerfRoas (entries : List (String × ℚ)) : Performance :=
  { total_impressions := 0, total_spend := 0, avg_roas := 0, confidence_score := 0,
    days_running := 0,
    campaigns := entries.map (fun e => (e.1, ⟨0, 0, 0, 0, e.2, 0⟩)) }

/-- C3: exploit_mode_decisions evaluates each active campaign independently:
ROAS above 3.0 yields a 10 percent increase capped by the 50 percent
maximum daily increase, ROAS below 1.5 yields a 20 percent decrease floored
at the minimum budget 100, and ROAS in [1.5, 3.0] yields no decision;
concretely roas=4.0, budget=1000 gives 1100, roas=1.0, budget=800 gives
640, and roas=2.0 gives no decision. -/
theorem exploit_decisions_spec (cs : List Campaign) (performance : Performance)
    (active : List Campaign)
    (ha : active = cs.filter (fun c => c.status == "active")) :
    (∀ c ∈ active, performance.campaignRoas c.id > 3 →
        Decision.budget_allocation c.id c.budget_allocated
          (min (c.budget_allocated * (11 / 10)) (c.budget_allocated * (1 + 50 / 100)))
          ("Exploit: High ROAS (" ++ toString (performance.campaignRoas c.id) ++
            ") - increasing budget")
        ∈ exploit_mode_decisions MVP_CONFIG cs performance)
    ∧ (∀ c ∈ active, performance.campaignRoas c.id < 3 / 2 →
        Decision.budget_allocation c.id c.budget_allocated
          (max (c.budget_allocated * (8 / 10)) 100)
          ("Exploit: Low ROAS (" ++ toString (performance.campaignRoas c.id) ++
            ") - decreasing budget")
        ∈ exploit_mode_decisions MVP_CONFIG cs performance)
    ∧ (∀ c ∈ active, 3 / 2 ≤ performance.campaignRoas c.id →
        performance.campaignRoas c.id ≤ 3 →
        ∀ d ∈ exploit_mode_decisions MVP_CONFIG cs performance, d.campaign_id ≠ c.id)
    ∧ (∀ d ∈ exploit_mode_decisions MVP_CONFIG cs performance,
        ∃ c ∈ active, d.campaign_id = c.id ∧ d.old_budget = c.budget_allocated ∧
          ((performance.campaignRoas c.id > 3 ∧
             d.new_budget = min (c.budget_allocated * (11 / 10))
               (c.budget_allocated * (1 + 50 / 100)) ∧
             d.new_budget - d.old_budget ≤ (50 / 100) * d.old_budget) ∨
           (performance.campaignRoas c.id < 3 / 2 ∧
             d.new_budget = max (c.budget_allocated * (8 / 10)) 100 ∧
             100 ≤ d.new_budget)))
    ∧ (exploit_mode_decisions MVP_CONFIG [⟨"c1", "active", 1000⟩]
        (mkPerfRoas [("c1", 4)])).map
          (fun d => (d.campaign_id, d.old_budget, d.new_budget)) = [("c1", 1000, 1100)]
    ∧ (exploit_mode_decisions MVP_CONFIG [⟨"c2", "active", 800⟩]
        (mkPerfRoas [("c2", 1)])).map
          (fun d => (d.campaign_id, d.old_budget, d.new_budget)) = [("c2", 800, 640)]
    ∧ exploit_mode_decisions MVP_CONFIG [⟨"c3", "active", 500⟩]
        (mkPerfRoas [("c3", 2)]) = [] := by
  subst ha
  refine ⟨?_, ?_, ?_, ?_, ?_, ?_, ?_⟩
  · intro c hc hroas
    have hne := isEmpty_false_of_mem hc
    simp only [exploit_mode_decisions, MVP_CONFIG, hne, Bool.false_eq_true, ite_false]
    refine List.mem_filterMap.mpr ⟨c, mem_sortByRoasDesc performance hc, ?_⟩
    simp only [hroas, ite_true]
  · intro c hc hroas
    have hne := isEmpty_false_of_mem hc
    have hnot : ¬ (performance.campaignRoas c.id > 3) := by
      apply not_lt.mpr
      apply le_of_lt
      exact lt_trans hroas (by norm_num)
    simp only [exploit_mode_decisions, MVP_CONFIG, hne, Bool.false_eq_true, ite_false]
    refine List.mem_filterMap.mpr ⟨c, mem_sortByRoasDesc performance hc, ?_⟩
    simp only [hnot, ite_false, hroas, ite_true]
  · intro c hc h1 h2 d hd
    have hne := isEmpty_false_of_mem hc
    simp only [exploit_mode_decisions, MVP_CONFIG, hne, Bool.false_eq_true, ite_false] at hd
    obtain ⟨c2, hc2, hf⟩ := List.mem_filterMap.mp hd
    split_ifs at hf with hgt hlt
    · obtain rfl := Option.some.inj hf
      simp only [Decision.campaign_id]
      intro heq
      rw [heq] at hgt
      exact absurd hgt (not_lt.mpr h2)
    · obtain rfl := Option.some.inj hf
      simp only [Decision.campaign_id]
      intro heq
      rw [heq] at hlt
      exact absurd hlt (not_lt.mpr h1)
  · intro d hd
    by_cases hae : (cs.filter (fun c => c.status == "active")).isEmpty
    · simp [exploit_mode_decisions, hae] at hd
    · rw [Bool.not_eq_true] at hae
      simp only [exploit_mode_decisions, MVP_CONFIG, hae, Bool.false_eq_true, ite_false] at hd
      obtain ⟨c2, hc2, hf⟩ := List.mem_filterMap.mp hd
      have hc2a : c2 ∈ cs.filter (fun c => c.status == "active") := by
        have : List.Perm (sortByRoasDesc performance
            (cs.filter (fun c => c.status == "active")))
            (cs.filter (fun c => c.status == "active")) := by
          unfold sortByRoasDesc
          exact perm_ordSort _ _
        exact this.mem_iff.mp hc2
      split_ifs at hf with hgt hlt
      · obtain rfl := Option.some.inj hf
        refine ⟨c2, hc2a, rfl, rfl, Or.inl ⟨hgt, rfl, ?_⟩⟩
        simp only [Decision.new_budget, Decision.old_budget]
        have hmin := min_le_right (c2.budget_allocated * (11 / 10))
          (c2.budget_allocated * (1 + 50 / 100))
        linarith
      · obtain rfl := Option.some.inj hf
        refine ⟨c2, hc2a, rfl, rfl, Or.inr ⟨hlt, rfl, ?_⟩⟩
        simp only [Decision.new_budget]
        exact le_max_right _ _
  · norm_num [exploit_mode_decisions, mkPerfRoas, Performance.campaignRoas, sortByRoasDesc,
      ordSort, ordInsert, MVP_CONFIG, min_def, max_def, Decision.campaign_id,
      Decision.old_budget, Decision.new_budget, List.filterMap_cons, List.filterMap_nil]
  · norm_num [exploit_mode_decisions, mkPerfRoas, Performance.campaignRoas, sortByRoasDesc,
      ordSort, ordInsert, MVP_CONFIG, min_def, max_def, Decision.campaign_id,
      Decision.old_budget, Decision.new_budget, List.filterMap_cons, List.filterMap_nil]
  · norm_num [exploit_mode_decisions, mkPerfRoas, Performance.campaignRoas, sortByRoasDesc,
      ordSort, ordInsert, MVP_CONFIG, List.filterMap_cons, List.filterMap_nil]

/-- Witness for C3: the increase clause applied to the concrete high-ROAS
campaign. -/
theorem exploit_decisions_spec_witness :
    Decision.budget_allocation "c1" 1000
      (min (1000 * (11 / 10)) (1000 * (1 + 50 / 100)))
      ("Exploit: High ROAS (" ++
        toString ((mkPerfRoas [("c1", 4)]).campaignRoas "c1") ++ ") - increasing budget")
    ∈ exploit_mode_decisions MVP_CONFIG [⟨"c1", "active", 1000⟩] (mkPerfRoas [("c1", 4)]) := by
  have h := (exploit_decisions_spec [⟨"c1", "active", 1000⟩] (mkPerfRoas [("c1", 4)])
    _ rfl).1 ⟨"c1", "active", 1000⟩ (by decide) (by norm_num [mkPerfRoas,
      Performance.campaignRoas])
  simpa using h

/-- An executor whose operations all succeed. -/
def exOk : Executor :=
  { update_campaign_budget := fun _ _ => Except.ok true,
    pause_campaign := fun _ => Except.ok true,
    activate_campaign := fun _ => Except.ok true }

/-- Concrete world for one decision cycle: an existing SKU with one active
campaign and one aggregation row carrying 60 data points and campaign ROAS
4, so the cycle runs in exploit mode and executes one decision. -/
def worldW : World :=
  { sku_client_id := some "client1",
    campaigns := [⟨"c1", "active", 1000⟩],
    metric_groups := [⟨"c1", 100, 5000, 50, 300, 4, 60⟩],
    executor := exOk,
    decision_log := [],
    now := 0 }

/-- Helper: the data_points_used computation is identically 0 because the
summed campaigns key is absent from every execution-result record. -/
theorem sum_execResultCampaignsLen (ers : List ExecResult) :
    (ers.map execResultCampaignsLen).sum = 0 := by
  induction ers with
  | nil => rfl
  | cons r rs ih => simp [execResultCampaignsLen, ih]

/-- C10: log_decisions appends exactly one audit record per cycle carrying
sku_id, client_id, timestamp, mode, the full decision list and the full
execution-result list, and the record is never mutated afterwards (the log
grows by pure append); however its data_points_used field sums
len(r.get("campaigns", {})) over execution-result records, which have no
campaigns key, so the stored count is 0 for every input — in the concrete
worldW cycle the decision consumed 60 data points yet the logged record
says 0. -/
theorem log_decisions_data_points_always_zero :
    (∀ (now : ℤ) (log : List DecisionLog) (sid cid : String) (ds : List Decision)
       (m : String) (ers : List ExecResult),
      log_decisions now log sid cid ds m ers =
        log ++ [{ sku_id := sid, client_id := cid, timestamp := now,
                  decision_type := "hourly_optimization", mode := m, decisions := ds,
                  execution_results := ers,
                  data_points_used := (ers.map execResultCampaignsLen).sum,
                  confidence_score := 8 / 10 }]
      ∧ (ers.map execResultCampaignsLen).sum = 0)
    ∧ ((make_hourly_decisions MVP_CONFIG worldW "sku1").2.decision_log.map
        (fun rec => (rec.sku_id, rec.client_id, rec.mode, rec.decisions.length,
                     rec.execution_results.length, rec.data_points_used))
        = [("sku1", "client1", "exploit", 1, 1, 0)])
    ∧ (worldW.metric_groups.map MetricGroup.data_points).sum = 60 := by
  refine ⟨?_, ?_, by simp [worldW]⟩
  · intro now log sid cid ds m ers
    exact ⟨rfl, sum_execResultCampaignsLen ers⟩
  · norm_num [make_hourly_decisions, worldW, exOk, get_sku_performance, determine_mode,
      MVP_CONFIG, exploit_mode_decisions, explore_mode_decisions, Performance.campaignRoas,
      sortByRoasDesc, sortByRoasAsc, ordSort, ordInsert, execute_decisions, executeOne,
      log_decisions, execResultCampaignsLen, List.filterMap_cons, List.filterMap_nil,
      min_def, max_def]
    decide

end MediaBuying
